import Mathlib

/-!
# Verification of the SMPP session engine (`libs/smpplib/client.py`)

Shallow embedding of the client module: the command/state permission
matrix, the state-setter map, `send_pdu`, `read_pdu` (over an explicit
byte-stream model of the socket), the `listen` dispatch loop, `_bind`,
and the PDU history stack.  The wire codec (`smpp.py` / `pdu.py`) is an
external collaborator of this module and is not part of the sources; it
is modelled from the specification where needed, with each such
definition marked `Modelled from the spec:`.

Bytes are `Nat` values < 256; the socket's receive side is a `List Nat`
of the bytes the peer has written before closing.  `recv n` returns up
to `n` bytes from the front of that stream.
-/

namespace SmppClient

/-! ## Session states (module-level integer constants) -/

def SMPP_CLIENT_STATE_CLOSED : Nat := 0
def SMPP_CLIENT_STATE_OPEN : Nat := 1
def SMPP_CLIENT_STATE_BOUND_TX : Nat := 2
def SMPP_CLIENT_STATE_BOUND_RX : Nat := 3
def SMPP_CLIENT_STATE_BOUND_TRX : Nat := 4

/-! ## The Command–State Matrix (`command_states` dict) -/

/-- The `command_states` dict literal, as an association list in source
order.  Each entry maps a command name to the tuple of states in which
the command may be sent. -/
def command_states_table : List (String × List Nat) :=
  [ ("bind_transmitter", [SMPP_CLIENT_STATE_OPEN]),
    ("bind_transmitter_resp", [SMPP_CLIENT_STATE_OPEN]),
    ("bind_receiver", [SMPP_CLIENT_STATE_OPEN]),
    ("bind_receiver_resp", [SMPP_CLIENT_STATE_OPEN]),
    ("bind_transceiver", [SMPP_CLIENT_STATE_OPEN]),
    ("bind_transceiver_resp", [SMPP_CLIENT_STATE_OPEN]),
    ("outbind", [SMPP_CLIENT_STATE_OPEN]),
    ("unbind", [SMPP_CLIENT_STATE_BOUND_TX,
                SMPP_CLIENT_STATE_BOUND_RX,
                SMPP_CLIENT_STATE_BOUND_TRX]),
    ("unbind_resp", [SMPP_CLIENT_STATE_BOUND_TX,
                     SMPP_CLIENT_STATE_BOUND_RX,
                     SMPP_CLIENT_STATE_BOUND_TRX]),
    ("submit_sm", [SMPP_CLIENT_STATE_BOUND_TX,
                   SMPP_CLIENT_STATE_BOUND_TRX]),
    ("submit_sm_resp", [SMPP_CLIENT_STATE_BOUND_TX,
                        SMPP_CLIENT_STATE_BOUND_TRX]),
    ("submit_sm_multi", [SMPP_CLIENT_STATE_BOUND_TX,
                         SMPP_CLIENT_STATE_BOUND_TRX]),
    ("submit_sm_multi_resp", [SMPP_CLIENT_STATE_BOUND_TX,
                              SMPP_CLIENT_STATE_BOUND_TRX]),
    ("data_sm", [SMPP_CLIENT_STATE_BOUND_TX,
                 SMPP_CLIENT_STATE_BOUND_RX,
                 SMPP_CLIENT_STATE_BOUND_TRX]),
    ("data_sm_resp", [SMPP_CLIENT_STATE_BOUND_TX,
                      SMPP_CLIENT_STATE_BOUND_RX,
                      SMPP_CLIENT_STATE_BOUND_TRX]),
    ("deliver_sm", [SMPP_CLIENT_STATE_BOUND_RX,
                    SMPP_CLIENT_STATE_BOUND_TRX]),
    ("deliver_sm_resp", [SMPP_CLIENT_STATE_BOUND_RX,
                         SMPP_CLIENT_STATE_BOUND_TRX]),
    ("query_sm", [SMPP_CLIENT_STATE_BOUND_RX,
                  SMPP_CLIENT_STATE_BOUND_TRX]),
    ("query_sm_resp", [SMPP_CLIENT_STATE_BOUND_RX,
                       SMPP_CLIENT_STATE_BOUND_TRX]),
    ("cancel_sm", [SMPP_CLIENT_STATE_BOUND_RX,
                   SMPP_CLIENT_STATE_BOUND_TRX]),
    ("cancel_sm_resp", [SMPP_CLIENT_STATE_BOUND_RX,
                        SMPP_CLIENT_STATE_BOUND_TRX]),
    ("replace_sm", [SMPP_CLIENT_STATE_BOUND_TX]),
    ("replace_sm_resp", [SMPP_CLIENT_STATE_BOUND_TX]),
    ("enquire_link", [SMPP_CLIENT_STATE_BOUND_TX,
                      SMPP_CLIENT_STATE_BOUND_RX,
                      SMPP_CLIENT_STATE_BOUND_TRX]),
    ("enquire_link_resp", [SMPP_CLIENT_STATE_BOUND_TX,
                           SMPP_CLIENT_STATE_BOUND_RX,
                           SMPP_CLIENT_STATE_BOUND_TRX]),
    ("generic_nack", [SMPP_CLIENT_STATE_BOUND_TX,
                      SMPP_CLIENT_STATE_BOUND_RX,
                      SMPP_CLIENT_STATE_BOUND_TRX]) ]

/-- Dict lookup `command_states[c]`; `none` is Python's `KeyError`. -/
def command_states (c : String) : Option (List Nat) :=
  command_states_table.lookup c

/-- The `state_setters` dict: response commands whose receipt sets the
session state. -/
def state_setters_table : List (String × Nat) :=
  [ ("bind_transmitter_resp", SMPP_CLIENT_STATE_BOUND_TX),
    ("bind_receiver_resp", SMPP_CLIENT_STATE_BOUND_RX),
    ("bind_transceiver_resp", SMPP_CLIENT_STATE_BOUND_TRX),
    ("unbind_resp", SMPP_CLIENT_STATE_OPEN) ]

/-- Dict lookup `state_setters[c]`. -/
def state_setters (c : String) : Option Nat :=
  state_setters_table.lookup c

/-- The fixed command enumeration, in the order of the
`command_states` dict keys.  Used by the modelled codec as its
command-id ↔ command-name mapping. -/
def command_set : List String :=
  command_states_table.map Prod.fst

/-! ## PDUs and the modelled codec

The codec lives in `smpp.py` / `pdu.py`, which are not among the
sources; per the specification it is an opaque collaborator with the
contract `encode(Message) → bytes`, `decode(bytes) → Message |
DecodeError`, exposing `command`, `sequence`, `status` and a body. -/

/-- A protocol data unit as this module observes it: a command name, a
correlation sequence number, a status code and an opaque payload. -/
structure Pdu where
  command : String
  sequence : Nat
  status : Nat
  payload : List Nat
deriving DecidableEq

/-- Modelled from the spec: `pdu.is_error()` — a status of `0` means
success, any non-zero status is an error (`pdu.py` is not among the
sources). -/
def is_error (p : Pdu) : Bool :=
  p.status != 0

/-- Modelled from the spec: `pdu.is_request()` — the direction is
derivable from the command-name suffix; responses end in `_resp`
(`pdu.py` is not among the sources). -/
def is_request (p : Pdu) : Bool :=
  !(List.isSuffixOf ("_resp").data p.command.data)

/-- Big-endian 4-byte encoding of a 32-bit value. -/
def be4 (n : Nat) : List Nat :=
  [n / 2 ^ 24 % 256, n / 2 ^ 16 % 256, n / 2 ^ 8 % 256, n % 256]

/-- `struct.unpack('>L', s)`: succeeds exactly on a 4-byte string,
yielding the big-endian value; anything else raises `struct.error`. -/
def unpack_be (l : List Nat) : Option Nat :=
  match l with
  | [a, b, c, d] => some (((a * 256 + b) * 256 + c) * 256 + d)
  | _ => none

/-- Modelled from the spec: the codec's encoder (`pdu.generate`,
not among the sources) — a 4-byte big-endian total-length prefix
followed by the body; the header carries command id, status and
sequence, each 4 bytes, before the payload. -/
def generate (p : Pdu) : List Nat :=
  be4 (16 + p.payload.length) ++ be4 ((command_set.indexOf p.command)) ++
    be4 p.status ++ be4 p.sequence ++ p.payload

/-- Modelled from the spec: the codec's decoder (`smpp.parse_pdu` /
`pdu.PDU.extract_command`, not among the sources) — reads the header
fields at fixed offsets; fails (`DecodeError`) on a buffer too short to
hold a header or on an unknown command id.  `extract_command raw` is
`(parse_pdu raw).map Pdu.command`: in the source `extract_command`
returns `None` exactly when the buffer cannot be decoded, and
`read_pdu` returns `False` on that `None` before calling `parse_pdu`. -/
def parse_pdu (raw : List Nat) : Option Pdu :=
  match unpack_be ((raw.drop 4).take 4), unpack_be ((raw.drop 8).take 4),
      unpack_be ((raw.drop 12).take 4) with
  | some cid, some status, some seq =>
      match command_set.get? cid with
      | some c => some ⟨c, seq, status, raw.drop 16⟩
      | none => none
  | _, _, _ => none

/-- Modelled from the spec: `smpp.make_pdu(command_name)` (not among
the sources) builds a fresh PDU of the given command.  The sequence is
whatever default the codec assigns — it is not taken from any received
message; `0` stands for that default, and no theorem below depends on
its particular value beyond it being one fixed number. -/
def make_pdu (c : String) : Pdu :=
  ⟨c, 0, 0, []⟩

/-! ## The PDU history stack (`_push_pdu`) -/

/-- One `{p.sequence: {k: p}}` entry of the `_stack` list, where `k` is
`'request'` or `'response'`. -/
structure StackEntry where
  sequence : Nat
  kind : String
  p : Pdu
deriving DecidableEq

/-- The entry `_push_pdu` appends for a PDU. -/
def stack_entry (p : Pdu) : StackEntry :=
  ⟨p.sequence, if is_request p then "request" else "response", p⟩

/-- `Client._push_pdu`: append one entry at the end of the stack. -/
def push_pdu (p : Pdu) (stack : List StackEntry) : List StackEntry :=
  stack ++ [stack_entry p]

/-! ## `Client.send_pdu`

```
if not self.state in command_states[p.command]:
    raise Exception("Command %s failed: %s"
        % (p.command, pdu.descs[pdu.SMPP_ESME_RINVBNDSTS]))
self._push_pdu(p)
...
generated = p.generate()
...
res = self._socket.send(generated)
return True
```

The raised exceptions become error outcomes, the Python `return True`
a success outcome.  `writes` is the list of buffers handed to
`self._socket.send`, in order — empty on every error path. -/

/-- Errors `send_pdu` can raise: the invalid-bind-state `Exception`
(whose message carries the command name and the `RINVBNDSTS`
description from the status-descriptions table), and a `KeyError` when
the command is missing from the `command_states` dict. -/
inductive SendError where
  | invalidState (command : String) : SendError
  | keyError (command : String) : SendError
deriving DecidableEq

/-- Outcome of a `send_pdu` call: the returned value or the raised
error. -/
inductive SendOutcome where
  | ok (b : Bool) : SendOutcome
  | raised (e : SendError) : SendOutcome
deriving DecidableEq

/-- The result of one `send_pdu` call: outcome, the stack after the
call, and the buffers written to the socket. -/
structure SendResult where
  result : SendOutcome
  stack : List StackEntry
  writes : List (List Nat)
deriving DecidableEq

/-- `Client.send_pdu` over the current state and stack. -/
def send_pdu (st : Nat) (stack : List StackEntry) (p : Pdu) : SendResult :=
  match command_states p.command with
  | none => ⟨.raised (.keyError p.command), stack, []⟩
  | some allowed =>
      if st ∈ allowed then
        ⟨.ok true, push_pdu p stack, [generate p]⟩
      else
        ⟨.raised (.invalidState p.command), stack, []⟩

/-! ## `Client.read_pdu`

```
raw_len = self._socket.recv(4)
if raw_len == 0:
    return False
try:
    length = struct.unpack('>L', raw_len)[0]
except struct.error:
    logger.error('Receive broken pdu...')
    return False
raw_pdu = self._socket.recv(length - 4)
raw_pdu = raw_len + raw_pdu
cmd = pdu.PDU.extract_command(raw_pdu)
if cmd is None:
    return False
p = smpp.parse_pdu(raw_pdu)
self._push_pdu(p)
if p.is_error():
    raise Exception('(%s) %s: %s' % (p.status, p.command,
        pdu.descs[p.status]))
elif p.command in state_setters.keys():
    self.state = state_setters[p.command]
return p
```

`recv n` is modelled as taking up to `n` bytes off the front of the
stream of bytes the peer wrote before closing. -/

/-- The guard `raw_len == 0`.  `raw_len` is the byte string returned by
`recv`; under Python semantics a `str`/`bytes` value never compares
equal to the `int` `0` — including the empty string produced when the
peer has closed the connection — so this comparison is `False` for
every possible received value. -/
def rawLenEqZero (_raw_len : List Nat) : Bool :=
  false

/-- What lines 199–213 of `read_pdu` can produce: a `return False`
(either the dead `raw_len == 0` guard or `struct.error` on a prefix
that is not exactly 4 bytes), an uncaught `ValueError` when
`length - 4` is negative (Python raises "negative buffersize in recv"
for any prefix value below 4), or the assembled raw frame. -/
inductive RawReadResult where
  | retFalse : RawReadResult
  | valueError : RawReadResult
  | frame (raw : List Nat) : RawReadResult
deriving DecidableEq

/-- Lines 199–213 of `read_pdu`: assemble one raw frame from the
stream.  `length - 4` is a Python integer subtraction: when the parsed
`length` is below 4 the count is negative and `recv` raises an
uncaught `ValueError`; from 4 upwards the subtraction agrees with the
`Nat` subtraction used in the frame expression. -/
def read_raw_pdu (stream : List Nat) : RawReadResult :=
  let raw_len := stream.take 4
  if rawLenEqZero raw_len then .retFalse
  else
    match unpack_be raw_len with
    | none => .retFalse
    | some length =>
        if length < 4 then .valueError
        else .frame (raw_len ++ (stream.drop 4).take (length - 4))

/-- What one `read_pdu` call can produce: the Python `return False`
(both broken-frame paths and an undecodable buffer), the uncaught
`ValueError` propagating from `recv` of a negative count, the raised
error-status `Exception` carrying status and command name, or the
decoded PDU. -/
inductive ReadOutcome where
  | retFalse : ReadOutcome
  | valueError : ReadOutcome
  | pduError (status : Nat) (command : String) : ReadOutcome
  | okPdu (p : Pdu) : ReadOutcome
deriving DecidableEq

/-- The result of one `read_pdu` call: outcome, the state after the
call, and the stack after the call. -/
structure ReadResult where
  outcome : ReadOutcome
  state : Nat
  stack : List StackEntry
deriving DecidableEq

/-- `Client.read_pdu` over the current state, stack, and receive
stream. -/
def read_pdu (st : Nat) (stack : List StackEntry) (stream : List Nat) :
    ReadResult :=
  match read_raw_pdu stream with
  | .retFalse => ⟨.retFalse, st, stack⟩
  | .valueError => ⟨.valueError, st, stack⟩
  | .frame raw =>
      match parse_pdu raw with
      | none => ⟨.retFalse, st, stack⟩
      | some p =>
          let stack2 := push_pdu p stack
          if is_error p then ⟨.pduError p.status p.command, st, stack2⟩
          else
            match state_setters p.command with
            | some s2 => ⟨.okPdu p, s2, stack2⟩
            | none => ⟨.okPdu p, st, stack2⟩

/-! ## The dispatch loop (`Client.listen`) and its handlers

`listen` repeatedly calls `read_pdu` and dispatches on the received
command.  The loop body is modelled at the decoded-message level: the
input is the sequence of PDUs the successive `read_pdu` calls return
(socket timeouts and `False` reads are skipped by the loop with
`continue` and do not reach the dispatch), and the observable behaviour
is an ordered trace of events.  `send_pdu` keeps its state check;
a raised `SendError` propagates out of the loop (the `try` in `listen`
only catches `socket.timeout`).  The stack effects of these sends are
those of `send_pdu` above and are not repeated in the event trace. -/

/-- Observable events of the dispatch loop, in program order:
a PDU handed to `self._socket.send` (via `send_pdu`), an invocation of
`message_received_handler`, the `break` on `unbind`, and the
unhandled-command log line. -/
inductive Event where
  | sent (p : Pdu) : Event
  | handlerInvoked (p : Pdu) : Event
  | unbindBreak : Event
  | unhandled (command : String) : Event
deriving DecidableEq

/-- Outcome of a run of the dispatch loop: the trace of events, or a
`SendError` escaping the loop (preceded by the events already
produced). -/
inductive ListenResult where
  | ok (events : List Event) : ListenResult
  | raised (pre : List Event) (e : SendError) : ListenResult
deriving DecidableEq

/-- `Client._message_received`: build a `deliver_sm_resp`, set its
sequence to the received PDU's sequence, send it, then invoke the
message-received handler with the received PDU. -/
def message_received (st : Nat) (p : Pdu) : ListenResult :=
  let dsmr : Pdu := { make_pdu ("deliver_sm_resp") with sequence := p.sequence }
  match (send_pdu st [] dsmr).result with
  | .raised e => .raised [] e
  | .ok _ => .ok [.sent dsmr, .handlerInvoked p]

/-- `Client._enquire_link_received`: build an `enquire_link_resp` and
send it.  The received PDU is not passed in — the handler takes no
argument — so nothing of the request (its sequence included) reaches
the response. -/
def enquire_link_received (st : Nat) : ListenResult :=
  let ler : Pdu := make_pdu ("enquire_link_resp")
  match (send_pdu st [] ler).result with
  | .raised e => .raised [] e
  | .ok _ => .ok [.sent ler]

/-- Sequential composition of loop iterations: append this iteration's
events before whatever the rest of the run produces. -/
def listenSeq (r : ListenResult) (rest : ListenResult) : ListenResult :=
  match r with
  | .raised pre e => .raised pre e
  | .ok evs =>
      match rest with
      | .ok evs2 => .ok (evs ++ evs2)
      | .raised pre e => .raised (evs ++ pre) e

/-- The dispatch of `Client.listen` over the PDUs the successive
successful `read_pdu` calls deliver: `unbind` logs and breaks;
`deliver_sm` goes to `_message_received`; `enquire_link` goes to
`_enquire_link_received`; anything else is logged as unhandled. -/
def listen_dispatch (st : Nat) : List Pdu → ListenResult
  | [] => .ok []
  | p :: rest =>
      if p.command = "unbind" then .ok [.unbindBreak]
      else if p.command = "deliver_sm" then
        listenSeq (message_received st p) (listen_dispatch st rest)
      else if p.command = "enquire_link" then
        listenSeq (enquire_link_received st) (listen_dispatch st rest)
      else
        listenSeq (.ok [.unhandled p.command]) (listen_dispatch st rest)

/-- `Client.listen` checks `receiver_mode` first and raises a usage
`Exception` when the client is not a receiver; otherwise it runs the
dispatch loop. -/
def listen (receiver_mode : Bool) (st : Nat) (incoming : List Pdu) :
    Option ListenResult :=
  if receiver_mode then some (listen_dispatch st incoming) else none

/-! ## `Client._bind`

```
if command_name in ['bind_receiver', 'bind_transceiver']:
    self.receiver_mode = True
p = smpp.make_pdu(command_name, **(args))
res = self.send_pdu(p)
return self.read_pdu()
```
-/

/-- The per-instance attributes of a `Client` that `_bind` touches.
(The PDU stack is *not* among them: `_stack` is a class attribute — see
the process model below; it is threaded explicitly here.) -/
structure ClientState where
  state : Nat
  receiver_mode : Bool
  stack : List StackEntry
deriving DecidableEq

/-- What a `_bind` call produces: the `send_pdu` exception
propagating, or the value of the final `read_pdu`. -/
inductive BindOutcome where
  | sendRaised (e : SendError) : BindOutcome
  | readReturned (r : ReadOutcome) : BindOutcome
deriving DecidableEq

/-- `Client._bind` over the client state and the receive stream:
set `receiver_mode` for the receiver-capable variants, make the bind
PDU, send it, then read one PDU.  Returns the outcome, the client
state after the call, and the buffers written to the socket. -/
def Client_bind (command_name : String) (c : ClientState)
    (stream : List Nat) : BindOutcome × ClientState × List (List Nat) :=
  let rm := if command_name = "bind_receiver" ∨
      command_name = "bind_transceiver" then true else c.receiver_mode
  let c1 : ClientState := { c with receiver_mode := rm }
  let p := make_pdu command_name
  let sres := send_pdu c1.state c1.stack p
  match sres.result with
  | .raised e => (.sendRaised e, { c1 with stack := sres.stack }, sres.writes)
  | .ok _ =>
      let r := read_pdu c1.state sres.stack stream
      (.readReturned r.outcome, { c1 with state := r.state, stack := r.stack },
        sres.writes)

/-! ## The process-wide PDU stack

`class Client` declares `_stack = []` at class level (line 99) and
`__init__` never assigns `self._stack`, so the attribute lookup in
`self._stack.append(...)` inside `_push_pdu` falls through to the class
attribute: every instance's append mutates the one list object owned by
the class.  The model therefore keeps the stack in a process record,
outside the instances. -/

/-- The per-instance attributes `__init__` actually assigns (plus the
class-level `state` default, shadowed per instance on first
assignment).  There is no stack field. -/
structure ClientInstance where
  host : String
  port : Nat
  state : Nat
  receiver_mode : Bool
deriving DecidableEq

/-- Process-wide mutable state: the single `Client._stack` list object
shared by every instance. -/
structure SmppProcess where
  Client_stack : List StackEntry
deriving DecidableEq

/-- The history as observed through a given instance: `self._stack`
resolves to the class attribute, whichever instance `self` is. -/
def historyOf (_c : ClientInstance) (proc : SmppProcess) : List StackEntry :=
  proc.Client_stack

/-- `self._push_pdu(p)` called on a given instance: appends to the
class-level list (the instance is irrelevant to where the entry
lands). -/
def instance_push (_c : ClientInstance) (p : Pdu) (proc : SmppProcess) :
    SmppProcess :=
  ⟨push_pdu p proc.Client_stack⟩

/-! ## Helper lemmas -/

/-- A successful association-list lookup returns one of the stored
values. -/
theorem lookup_mem_values {α β : Type} [BEq α] :
    ∀ (t : List (α × β)) (a : α) (b : β), List.lookup a t = some b →
      b ∈ t.map Prod.snd := by
  intro t a b h
  induction t with
  | nil => simp [List.lookup] at h
  | cons hd tl ih =>
      obtain ⟨k, v⟩ := hd
      rw [List.lookup] at h
      split at h
      · cases h
        simp
      · simp only [List.map_cons, List.mem_cons]
        exact Or.inr (ih h)

/-- No value list of the Command–State Matrix contains the `Closed`
state. -/
theorem command_states_values_no_closed :
    ∀ l ∈ command_states_table.map Prod.snd,
      SMPP_CLIENT_STATE_CLOSED ∉ l := by decide

/-- Any successful `command_states` lookup yields a state list without
`Closed`. -/
theorem command_states_no_closed {c : String} {l : List Nat}
    (h : command_states c = some l) : SMPP_CLIENT_STATE_CLOSED ∉ l :=
  command_states_values_no_closed l (lookup_mem_values _ c l h)

/-! ## Claims -/

/-- C1: for every message `m` whose command the Command–State Matrix
covers, `send_pdu m` succeeds iff the session state is a member of
`command_states[m.command]`; on a non-member state the call raises the
`InvalidState` error carrying the command name and writes no bytes to
the transport, and on a member state it pushes the PDU and writes its
encoding. -/
theorem send_pdu_succeeds_iff_state_allowed (st : Nat)
    (stack : List StackEntry) (p : Pdu) (allowed : List Nat)
    (h : command_states p.command = some allowed) :
    ((send_pdu st stack p).result = .ok true ↔ st ∈ allowed) ∧
    (st ∈ allowed →
      send_pdu st stack p = ⟨.ok true, push_pdu p stack, [generate p]⟩) ∧
    (st ∉ allowed →
      send_pdu st stack p = ⟨.raised (.invalidState p.command), stack, []⟩) := by
  simp only [send_pdu, h]
  by_cases hm : st ∈ allowed
  · rw [if_pos hm]
    refine ⟨⟨fun _ => hm, fun _ => rfl⟩, fun _ => rfl, fun hc => ?_⟩
    exact absurd hm hc
  · rw [if_neg hm]
    refine ⟨⟨fun hc => ?_, fun hc => ?_⟩, fun hc => ?_, fun _ => rfl⟩
    · exact nomatch hc
    · exact absurd hc hm
    · exact absurd hc hm

/-- Witness for C1: `submit_sm` is permitted in the bound-transmitter
and bound-transceiver states only; sending it while bound as a
transmitter succeeds, and sending it in the `Open` state raises
`InvalidState` naming `submit_sm` with nothing written. -/
theorem send_pdu_succeeds_iff_state_allowed_witness :
    command_states ("submit_sm") =
      some [SMPP_CLIENT_STATE_BOUND_TX, SMPP_CLIENT_STATE_BOUND_TRX] ∧
    ((send_pdu SMPP_CLIENT_STATE_BOUND_TX [] ⟨"submit_sm", 1, 0, []⟩).result =
        .ok true ↔
      SMPP_CLIENT_STATE_BOUND_TX ∈
        [SMPP_CLIENT_STATE_BOUND_TX, SMPP_CLIENT_STATE_BOUND_TRX]) ∧
    send_pdu SMPP_CLIENT_STATE_OPEN [] ⟨"submit_sm", 1, 0, []⟩ =
      ⟨.raised (.invalidState ("submit_sm")), [], []⟩ :=
  ⟨by decide,
   (send_pdu_succeeds_iff_state_allowed SMPP_CLIENT_STATE_BOUND_TX []
      ⟨"submit_sm", 1, 0, []⟩
      [SMPP_CLIENT_STATE_BOUND_TX, SMPP_CLIENT_STATE_BOUND_TRX]
      (by decide)).1,
   (send_pdu_succeeds_iff_state_allowed SMPP_CLIENT_STATE_OPEN []
      ⟨"submit_sm", 1, 0, []⟩
      [SMPP_CLIENT_STATE_BOUND_TX, SMPP_CLIENT_STATE_BOUND_TRX]
      (by decide)).2.2 (by decide)⟩

/-- C10: the `Closed` state appears in no permitted-state set of the
Command–State Matrix, so `send_pdu` invoked while the state is `Closed`
always raises the `InvalidState` error for the message's command and
writes no bytes. -/
theorem closed_state_rejects_every_send (stack : List StackEntry) (p : Pdu)
    (allowed : List Nat) (h : command_states p.command = some allowed) :
    (∀ l ∈ command_states_table.map Prod.snd,
      SMPP_CLIENT_STATE_CLOSED ∉ l) ∧
    SMPP_CLIENT_STATE_CLOSED ∉ allowed ∧
    send_pdu SMPP_CLIENT_STATE_CLOSED stack p =
      ⟨.raised (.invalidState p.command), stack, []⟩ := by
  have hn := command_states_no_closed h
  refine ⟨command_states_values_no_closed, hn, ?_⟩
  simp only [send_pdu, h]
  rw [if_neg hn]

/-- Witness for C10: an `enquire_link` sent on a freshly constructed
(still closed) client raises `InvalidState` and writes nothing. -/
theorem closed_state_rejects_every_send_witness :
    command_states ("enquire_link") =
      some [SMPP_CLIENT_STATE_BOUND_TX, SMPP_CLIENT_STATE_BOUND_RX,
            SMPP_CLIENT_STATE_BOUND_TRX] ∧
    (SMPP_CLIENT_STATE_CLOSED ∉
        [SMPP_CLIENT_STATE_BOUND_TX, SMPP_CLIENT_STATE_BOUND_RX,
         SMPP_CLIENT_STATE_BOUND_TRX] ∧
      send_pdu SMPP_CLIENT_STATE_CLOSED [] ⟨"enquire_link", 9, 0, []⟩ =
        ⟨.raised (.invalidState ("enquire_link")), [], []⟩) :=
  ⟨by decide,
   (closed_state_rejects_every_send [] ⟨"enquire_link", 9, 0, []⟩
      [SMPP_CLIENT_STATE_BOUND_TX, SMPP_CLIENT_STATE_BOUND_RX,
       SMPP_CLIENT_STATE_BOUND_TRX] (by decide)).2⟩

/-- C2: whenever `read_pdu` decodes a non-error message whose command
is a key of the State-Setter Map, it sets the session state to exactly
the mapped state before returning the message — whatever the prior
state was — and appends the message to the history. -/
theorem read_pdu_state_setter_updates_state (st : Nat)
    (stack : List StackEntry) (stream raw : List Nat) (p : Pdu) (s2 : Nat)
    (hraw : read_raw_pdu stream = .frame raw)
    (hp : parse_pdu raw = some p)
    (herr : is_error p = false)
    (hset : state_setters p.command = some s2) :
    read_pdu st stack stream = ⟨.okPdu p, s2, push_pdu p stack⟩ := by
  simp only [read_pdu, hraw, hp, herr, hset]
  rfl

/-- Witness for C2: a successful `bind_transceiver_resp` frame moves a
session that was still `Open` to `BoundTransceiver`. -/
theorem read_pdu_state_setter_updates_state_witness :
    read_raw_pdu [0, 0, 0, 16, 0, 0, 0, 5, 0, 0, 0, 0, 0, 0, 0, 1] =
      .frame [0, 0, 0, 16, 0, 0, 0, 5, 0, 0, 0, 0, 0, 0, 0, 1] ∧
    parse_pdu [0, 0, 0, 16, 0, 0, 0, 5, 0, 0, 0, 0, 0, 0, 0, 1] =
      some ⟨"bind_transceiver_resp", 1, 0, []⟩ ∧
    is_error ⟨"bind_transceiver_resp", 1, 0, []⟩ = false ∧
    state_setters ("bind_transceiver_resp") =
      some SMPP_CLIENT_STATE_BOUND_TRX ∧
    read_pdu SMPP_CLIENT_STATE_OPEN []
        [0, 0, 0, 16, 0, 0, 0, 5, 0, 0, 0, 0, 0, 0, 0, 1] =
      ⟨.okPdu ⟨"bind_transceiver_resp", 1, 0, []⟩,
       SMPP_CLIENT_STATE_BOUND_TRX,
       push_pdu ⟨"bind_transceiver_resp", 1, 0, []⟩ []⟩ :=
  ⟨by decide, by decide, by decide, by decide,
   read_pdu_state_setter_updates_state SMPP_CLIENT_STATE_OPEN []
     [0, 0, 0, 16, 0, 0, 0, 5, 0, 0, 0, 0, 0, 0, 0, 1]
     [0, 0, 0, 16, 0, 0, 0, 5, 0, 0, 0, 0, 0, 0, 0, 1]
     ⟨"bind_transceiver_resp", 1, 0, []⟩ SMPP_CLIENT_STATE_BOUND_TRX
     (by decide) (by decide) (by decide) (by decide)⟩

/-- C3 counterexample: `bind_transceiver_resp` is in the State-Setter
Map (mapping to `BoundTransceiver`), yet when it arrives carrying the
non-zero status `1` the session state is left at `Open` — the
state-setter update does *not* still apply to an error response,
because the `is_error` check raises before the `elif` that would set
the state. -/
theorem error_response_state_setter_counterexample :
    state_setters ("bind_transceiver_resp") =
      some SMPP_CLIENT_STATE_BOUND_TRX ∧
    read_pdu SMPP_CLIENT_STATE_OPEN []
        [0, 0, 0, 16, 0, 0, 0, 5, 0, 0, 0, 1, 0, 0, 0, 1] =
      ⟨.pduError 1 ("bind_transceiver_resp"), SMPP_CLIENT_STATE_OPEN,
       [⟨1, "response", ⟨"bind_transceiver_resp", 1, 1, []⟩⟩]⟩ ∧
    SMPP_CLIENT_STATE_OPEN ≠ SMPP_CLIENT_STATE_BOUND_TRX := by decide

/-- C3 (amended): a response with non-zero status makes `read_pdu`
raise a protocol-level error carrying the status code and the command
name, appends the message to the history, and never mutates the
session state — even when the command is in the State-Setter Map,
since the error check precedes the state-setter branch. -/
theorem read_pdu_error_response (st : Nat) (stack : List StackEntry)
    (stream raw : List Nat) (p : Pdu)
    (hraw : read_raw_pdu stream = .frame raw)
    (hp : parse_pdu raw = some p)
    (herr : is_error p = true) :
    read_pdu st stack stream =
      ⟨.pduError p.status p.command, st, push_pdu p stack⟩ := by
  simp only [read_pdu, hraw, hp, herr]
  rfl

/-- Witness for C3 (amended): the error-status `bind_transceiver_resp`
frame raises `(1) bind_transceiver_resp` and leaves the state at
`Open`. -/
theorem read_pdu_error_response_witness :
    read_raw_pdu [0, 0, 0, 16, 0, 0, 0, 5, 0, 0, 0, 1, 0, 0, 0, 1] =
      .frame [0, 0, 0, 16, 0, 0, 0, 5, 0, 0, 0, 1, 0, 0, 0, 1] ∧
    parse_pdu [0, 0, 0, 16, 0, 0, 0, 5, 0, 0, 0, 1, 0, 0, 0, 1] =
      some ⟨"bind_transceiver_resp", 1, 1, []⟩ ∧
    is_error ⟨"bind_transceiver_resp", 1, 1, []⟩ = true ∧
    read_pdu SMPP_CLIENT_STATE_OPEN []
        [0, 0, 0, 16, 0, 0, 0, 5, 0, 0, 0, 1, 0, 0, 0, 1] =
      ⟨.pduError 1 ("bind_transceiver_resp"), SMPP_CLIENT_STATE_OPEN,
       push_pdu ⟨"bind_transceiver_resp", 1, 1, []⟩ []⟩ :=
  ⟨by decide, by decide, by decide,
   read_pdu_error_response SMPP_CLIENT_STATE_OPEN []
     [0, 0, 0, 16, 0, 0, 0, 5, 0, 0, 0, 1, 0, 0, 0, 1]
     [0, 0, 0, 16, 0, 0, 0, 5, 0, 0, 0, 1, 0, 0, 0, 1]
     ⟨"bind_transceiver_resp", 1, 1, []⟩
     (by decide) (by decide) (by decide)⟩

/-- C4 counterexample: a peer that closed before any bytes arrived
(empty stream) produces exactly the same result as a partial 2-byte
length prefix — the plain `False` return.  There is no `EndOfStream`
signal distinct from the framing-error signal. -/
theorem eof_framing_not_distinct_counterexample :
    read_pdu SMPP_CLIENT_STATE_OPEN [] [] =
      read_pdu SMPP_CLIENT_STATE_OPEN [] [0, 0] ∧
    (read_pdu SMPP_CLIENT_STATE_OPEN [] []).outcome = .retFalse := by decide

/-- C4 (amended): both a connection closed before any bytes arrive and
a partial/unparsable length prefix make `read_pdu` return the same
non-error `False` signal, leaving state and history untouched.  The
`raw_len == 0` end-of-stream guard compares a byte string with the
integer `0` and thus never fires, so the empty read is handled by the
`struct.error` broken-PDU path. -/
theorem read_pdu_empty_and_partial_same_signal (st : Nat)
    (stack : List StackEntry) :
    rawLenEqZero [] = false ∧
    read_pdu st stack [] = ⟨.retFalse, st, stack⟩ ∧
    read_pdu st stack [0, 0] = ⟨.retFalse, st, stack⟩ ∧
    read_pdu st stack [] = read_pdu st stack [0, 0] :=
  ⟨rfl, rfl, rfl, rfl⟩

/-- C5 counterexample: a frame whose prefix declares a total length of
20 but whose stream ends right after the prefix (peer closed
mid-frame) is *not* an error: the single `recv` yields nothing, the
truncated 4-byte buffer is assembled as the frame, and `read_pdu`
returns the non-error `False` signal. -/
theorem midframe_close_not_error_counterexample :
    read_raw_pdu [0, 0, 0, 20] = .frame [0, 0, 0, 20] ∧
    read_pdu SMPP_CLIENT_STATE_BOUND_TRX [] [0, 0, 0, 20] =
      ⟨.retFalse, SMPP_CLIENT_STATE_BOUND_TRX, []⟩ := by decide

/-- C5 (amended): after parsing the 4-byte big-endian prefix as
`length`: when `length < 4` the single `recv(length − 4)` is given a
negative count and raises an uncaught `ValueError`; otherwise one
receive of *up to* `length − 4` bytes is issued and the prefix
concatenated with whatever arrived is assembled as the frame — and
when the stream does supply at least `length − 4` further bytes,
exactly `length − 4` bytes are taken and the returned frame has
exactly `length` bytes.  (There is no blocking-until-satisfied loop,
and a mid-frame close is not an error — see the counterexample.) -/
theorem read_raw_pdu_reads_exactly (stream : List Nat) (L : Nat)
    (hlen : unpack_be (stream.take 4) = some L) :
    (L < 4 → read_raw_pdu stream = .valueError) ∧
    (4 ≤ L → read_raw_pdu stream =
      .frame (stream.take 4 ++ (stream.drop 4).take (L - 4))) ∧
    (4 ≤ L → L - 4 ≤ (stream.drop 4).length →
      (stream.take 4 ++ (stream.drop 4).take (L - 4)).length = L) := by
  refine ⟨?_, ?_, ?_⟩
  · intro hL
    simp only [read_raw_pdu, rawLenEqZero, hlen]
    rw [if_neg (by simp), if_pos hL]
  · intro h4
    simp only [read_raw_pdu, rawLenEqZero, hlen]
    rw [if_neg (by simp), if_neg (by omega)]
  · intro h4 havail
    have hl4 : (stream.take 4).length = 4 := by
      unfold unpack_be at hlen
      split at hlen
      · simp_all
      · exact absurd hlen (by simp)
    rw [List.length_append, hl4, List.length_take, min_eq_left havail]
    omega

/-- Witness for C5 (amended): a complete 16-byte frame is read in
full — the body is exactly `16 − 4 = 12` bytes and the assembled frame
is exactly 16 bytes — while a prefix declaring a total length of 2
raises the `ValueError` (negative `recv` count). -/
theorem read_raw_pdu_reads_exactly_witness :
    unpack_be ([0, 0, 0, 16, 0, 0, 0, 5, 0, 0, 0, 0, 0, 0, 0, 1].take 4) =
      some 16 ∧
    read_raw_pdu [0, 0, 0, 16, 0, 0, 0, 5, 0, 0, 0, 0, 0, 0, 0, 1] =
      .frame ([0, 0, 0, 16, 0, 0, 0, 5, 0, 0, 0, 0, 0, 0, 0, 1].take 4 ++
        ([0, 0, 0, 16, 0, 0, 0, 5, 0, 0, 0, 0, 0, 0, 0, 1].drop 4).take
          (16 - 4)) ∧
    ([0, 0, 0, 16, 0, 0, 0, 5, 0, 0, 0, 0, 0, 0, 0, 1].take 4 ++
        ([0, 0, 0, 16, 0, 0, 0, 5, 0, 0, 0, 0, 0, 0, 0, 1].drop 4).take
          (16 - 4)).length = 16 ∧
    unpack_be ([0, 0, 0, 2, 9, 9].take 4) = some 2 ∧
    read_raw_pdu [0, 0, 0, 2, 9, 9] = .valueError :=
  ⟨by decide,
   (read_raw_pdu_reads_exactly
      [0, 0, 0, 16, 0, 0, 0, 5, 0, 0, 0, 0, 0, 0, 0, 1] 16
      (by decide)).2.1 (by decide),
   (read_raw_pdu_reads_exactly
      [0, 0, 0, 16, 0, 0, 0, 5, 0, 0, 0, 0, 0, 0, 0, 1] 16
      (by decide)).2.2 (by decide) (by decide),
   by decide,
   (read_raw_pdu_reads_exactly [0, 0, 0, 2, 9, 9] 2 (by decide)).1
     (by decide)⟩

/-- C6 counterexample: two distinct client instances; pushing an
exchanged message through the first changes the history observed
through the second — the log is shared process-wide, not
instance-owned. -/
theorem shared_stack_counterexample :
    (⟨"smsc-a", 2775, 1, false⟩ : ClientInstance) ≠
      (⟨"smsc-b", 2776, 1, false⟩ : ClientInstance) ∧
    historyOf ⟨"smsc-b", 2776, 1, false⟩
        (instance_push ⟨"smsc-a", 2775, 1, false⟩
          ⟨"submit_sm", 7, 0, []⟩ ⟨[]⟩) ≠
      historyOf ⟨"smsc-b", 2776, 1, false⟩ ⟨[]⟩ := by decide

/-- C6 (amended): `_stack` is a class-level list that `__init__` never
shadows, so `_push_pdu` appends to one process-wide log: after a push
performed through any instance, every instance observes the same
appended history. -/
theorem stack_is_process_shared (c1 c2 : ClientInstance) (p : Pdu)
    (proc : SmppProcess) :
    historyOf c2 (instance_push c1 p proc) =
      proc.Client_stack ++ [stack_entry p] ∧
    historyOf c2 (instance_push c1 p proc) =
      historyOf c1 (instance_push c1 p proc) :=
  ⟨rfl, rfl⟩

/-- C7: dispatching two consecutive `enquire_link` frames with
sequence numbers 5 and 7 sends exactly two `enquire_link_resp` PDUs —
but both are the very same freshly made PDU, whose sequence is the
codec default and is taken from neither request
(`_enquire_link_received` is not even passed the received PDU), so the
responses cannot echo the sequence numbers 5 and 7. -/
theorem enquire_link_resp_ignores_request_sequence :
    listen_dispatch SMPP_CLIENT_STATE_BOUND_RX
        [⟨"enquire_link", 5, 0, []⟩, ⟨"enquire_link", 7, 0, []⟩] =
      .ok [.sent (make_pdu ("enquire_link_resp")),
           .sent (make_pdu ("enquire_link_resp"))] ∧
    ¬ ((make_pdu ("enquire_link_resp")).sequence = 5 ∧
       (make_pdu ("enquire_link_resp")).sequence = 7) := by decide

/-- C8: an iteration of the dispatch loop on a `deliver_sm` frame, in
a state where `deliver_sm_resp` may be sent, produces exactly one sent
`deliver_sm_resp` carrying the request's sequence number, followed —
after the send — by the single push-handler invocation with the
received message. -/
theorem deliver_sm_resp_echoes_sequence_before_handler (st : Nat)
    (p : Pdu) (rest : List Pdu)
    (hst : st = SMPP_CLIENT_STATE_BOUND_RX ∨
      st = SMPP_CLIENT_STATE_BOUND_TRX)
    (hc : p.command = "deliver_sm") :
    listen_dispatch st (p :: rest) =
      listenSeq
        (.ok [.sent ⟨"deliver_sm_resp", p.sequence, 0, []⟩,
              .handlerInvoked p])
        (listen_dispatch st rest) := by
  have hmr : message_received st p =
      .ok [.sent ⟨"deliver_sm_resp", p.sequence, 0, []⟩,
           .handlerInvoked p] := by
    rcases hst with h | h <;> subst h <;> rfl
  simp only [listen_dispatch, hc, hmr]
  rw [if_neg (show ¬ (("deliver_sm" : String) = "unbind") by decide),
    if_pos trivial]

/-- Witness for C8: in the bound-receiver state, a `deliver_sm` with
sequence 5 yields the trace `[sent deliver_sm_resp(seq 5),
handlerInvoked]`. -/
theorem deliver_sm_resp_echoes_sequence_witness :
    (SMPP_CLIENT_STATE_BOUND_RX = SMPP_CLIENT_STATE_BOUND_RX ∨
      SMPP_CLIENT_STATE_BOUND_RX = SMPP_CLIENT_STATE_BOUND_TRX) ∧
    listen_dispatch SMPP_CLIENT_STATE_BOUND_RX
        [⟨"deliver_sm", 5, 0, [1, 2]⟩] =
      listenSeq
        (.ok [.sent ⟨"deliver_sm_resp", 5, 0, []⟩,
              .handlerInvoked ⟨"deliver_sm", 5, 0, [1, 2]⟩])
        (listen_dispatch SMPP_CLIENT_STATE_BOUND_RX []) :=
  ⟨Or.inl rfl,
   deliver_sm_resp_echoes_sequence_before_handler
     SMPP_CLIENT_STATE_BOUND_RX ⟨"deliver_sm", 5, 0, [1, 2]⟩ []
     (Or.inl rfl) rfl⟩

/-- The final `receiver_mode` of a `_bind` call: set for the
receiver-capable variants, untouched otherwise — on every outcome of
the send and the read. -/
theorem Client_bind_receiver_mode (command_name : String)
    (c : ClientState) (stream : List Nat) :
    (Client_bind command_name c stream).2.1.receiver_mode =
      (if command_name = "bind_receiver" ∨
          command_name = "bind_transceiver" then true
       else c.receiver_mode) := by
  simp only [Client_bind]
  by_cases hrm : command_name = "bind_receiver" ∨
    command_name = "bind_transceiver"
  · simp only [if_pos hrm]
    split <;> rfl
  · simp only [if_neg hrm]
    split <;> rfl

/-- C9: `bind_receiver` and `bind_transceiver` set `receiver_mode`
before the bind request is sent — in particular, even when the send
itself fails in the `Closed` state and no bytes are written (so no
response was ever awaited), the flag is already `true` — while
`bind_transmitter` leaves the flag as it was. -/
theorem bind_sets_receiver_flag_before_send (c : ClientState)
    (stream : List Nat) :
    (Client_bind ("bind_receiver") c stream).2.1.receiver_mode = true ∧
    (Client_bind ("bind_transceiver") c stream).2.1.receiver_mode = true ∧
    (Client_bind ("bind_transmitter") c stream).2.1.receiver_mode =
      c.receiver_mode ∧
    (Client_bind ("bind_receiver")
        { c with state := SMPP_CLIENT_STATE_CLOSED } stream).2.2 = [] ∧
    (Client_bind ("bind_receiver")
        { c with state := SMPP_CLIENT_STATE_CLOSED }
        stream).2.1.receiver_mode = true := by
  refine ⟨?_, ?_, ?_, rfl, rfl⟩
  · rw [Client_bind_receiver_mode]
    exact if_pos (Or.inl rfl)
  · rw [Client_bind_receiver_mode]
    exact if_pos (Or.inr rfl)
  · rw [Client_bind_receiver_mode]
    exact if_neg (by decide)

end SmppClient
